import Mathlib

/-!
Shallow embedding of selected parts of the evcc fork (matspi/evcc):
the Mennekes Amtron Professional modbus charger drivers
(`charger/amtron_professional.go` and `charger/amtron_prof.go`),
the AVM FritzDECT charger driver, and the cloud edge gateway
(`apiRequest` / `handleRequest` / `sendUpDates`).

Device and network I/O is external: each embedded operation takes the
outcome of the relevant I/O calls (register read results, command reply
strings, write success) as explicit arguments and returns the value the
Go function would return, together with the state updates and the device
writes it would perform.  Machine integers are modelled as `Nat`/`Int`
with explicit reduction modulo `2 ^ w` where the Go arithmetic wraps.
-/

namespace Evcc

/-- A Go `error` value, identified by its message text. -/
structure GoErr where
  msg : String
deriving DecidableEq, Repr

/-- `api.ErrNotAvailable` of the evcc api package. -/
def errNotAvailable : GoErr := ⟨"not available"⟩

/-- `api.ChargeStatus`: the IEC 61851 connector states, plus the
`StatusNone` zero value returned alongside errors. -/
inductive ChargeStatus where
  | none | A | B | C | D | E | F
deriving DecidableEq, Repr

/-! ## Amtron Professional drivers

Both drivers read modbus holding registers.  A successful read of one
16-bit register yields two bytes (big-endian); a read of two registers
yields four bytes.  Reads are passed in as `Except GoErr _` values. -/

/-- Go `uint16(i)` for `i : int64`: truncation to the low 16 bits. -/
def u16ofInt (i : Int) : Nat := (i % 65536).toNat

/-- `Status` of both Amtron drivers (identical code in
`amtron_professional.go` and `amtron_prof.go`): on a failed register
read return `(StatusNone, err)`; otherwise switch on the second byte
`b[1]` of the two-byte register value, mapping `1..6` to `A..F` and
anything else to `(StatusNone, invalid-status error)`. -/
def amtronStatus (read : Except GoErr (Nat × Nat)) : ChargeStatus × Option GoErr :=
  match read with
  | .error e => (.none, some e)
  | .ok (b0, b1) =>
    match b1 with
    | 1 => (.A, Option.none)
    | 2 => (.B, Option.none)
    | 3 => (.C, Option.none)
    | 4 => (.D, Option.none)
    | 5 => (.E, Option.none)
    | 6 => (.F, Option.none)
    | _ => (.none, some ⟨"invalid status: [" ++ toString b0 ++ " " ++ toString b1 ++ "]"⟩)

/-- `toUint32` (identical in both Amtron files): for fewer than four
bytes return `0`; otherwise
`uint32(binary.LittleEndian.Uint16(b)*256) + uint32(binary.BigEndian.Uint16(b[2:]))`,
the multiplication by 256 wrapping in 16-bit arithmetic before
widening, and the final addition performed in 32-bit arithmetic. -/
def toUint32 (b : List Nat) : Nat :=
  if b.length < 4 then 0
  else ((((b.getD 0 0 + b.getD 1 0 * 256) % 65536) * 256) % 65536
        + (b.getD 2 0 * 256 + b.getD 3 0) % 65536) % 4294967296

/-! ### `amtron_professional.go` (TCP variant, state `curr : uint16`) -/

/-- Mutable state of the `amtron_professional.go` driver: the fallback
current `curr`, a `uint16`, initialised to `6`. -/
structure AmtronTcp where
  curr : Nat
deriving DecidableEq, Repr

/-- `MaxCurrent` of `amtron_professional.go`: convert the requested
`int64` to `uint16`, write it to the amps-config register, and on a
successful write of a strictly positive value store it as the new
fallback `curr`.  Returns (new state, register value written, write
succeeded). -/
def tcpMaxCurrent (s : AmtronTcp) (current : Int) (writeOk : Bool) :
    AmtronTcp × Nat × Bool :=
  let cur := u16ofInt current
  if writeOk then
    (if 0 < cur then ⟨cur⟩ else s, cur, true)
  else
    (s, cur, false)

/-- `Enable` of `amtron_professional.go`: `Enable(true)` is
`MaxCurrent(curr)`, `Enable(false)` is `MaxCurrent(0)`. -/
def tcpEnable (s : AmtronTcp) (en : Bool) (writeOk : Bool) :
    AmtronTcp × Nat × Bool :=
  if en then tcpMaxCurrent s (Int.ofNat s.curr) writeOk
  else tcpMaxCurrent s 0 writeOk

/-- The state-mutating operations of the `amtron_professional.go`
driver, each tagged with whether its device write succeeds.  `Status`,
`Enabled`, `CurrentPower` and `Currents` do not touch `curr`. -/
inductive TcpOp where
  | mc (c : Int) (writeOk : Bool)
  | en (b : Bool) (writeOk : Bool)

/-- One mutating operation of the TCP driver, state part only. -/
def tcpStep (s : AmtronTcp) : TcpOp → AmtronTcp
  | .mc c w => (tcpMaxCurrent s c w).1
  | .en b w => (tcpEnable s b w).1

/-- Driver state after a sequence of operations, from the constructor's
initial state `curr = 6` (`NewAmtronProfessional`). -/
def tcpRun (ops : List TcpOp) : AmtronTcp :=
  ops.foldl tcpStep ⟨6⟩

/-! ### `amtron_prof.go` (cached variant, state `enabled`, `current`) -/

/-- Mutable state of the `amtron_prof.go` driver: cached `enabled` flag
and stored `current : int64`, initialised to `true` and `6`. -/
structure AmtronProf where
  enabled : Bool
  current : Int
deriving DecidableEq, Repr

/-- `MaxCurrent` of `amtron_prof.go`: store the requested current, and
only when the cached `enabled` flag is set write it (as `uint16`) to
the amps-config register.  Returns (new state, list of register values
written, returned error).  `wres` is the device write's outcome. -/
def profMaxCurrent (s : AmtronProf) (c : Int) (wres : Option GoErr) :
    AmtronProf × List Nat × Option GoErr :=
  if s.enabled then
    ({ s with current := c }, [u16ofInt c], wres)
  else
    ({ s with current := c }, [], Option.none)

/-- `Enable` of `amtron_prof.go`: `Enable(false)` is `MaxCurrent(0)`
then `enabled := false`; `Enable(true)` is `MaxCurrent(current)` then
`enabled := true` — note the cached flag is updated only after the
`MaxCurrent` call. -/
def profEnable (s : AmtronProf) (en : Bool) (wres : Option GoErr) :
    AmtronProf × List Nat × Option GoErr :=
  if en = false then
    match profMaxCurrent s 0 wres with
    | (s', w, e) => ({ s' with enabled := false }, w, e)
  else
    match profMaxCurrent s s.current wres with
    | (s', w, e) => ({ s' with enabled := true }, w, e)

/-- `Enabled` of `amtron_prof.go`: returns the cached flag, performs no
device I/O (empty write list), never fails. -/
def profEnabled (s : AmtronProf) : Bool × List Nat × Option GoErr :=
  (s.enabled, [], Option.none)

/-- `TotalEnergy` of `amtron_prof.go`: read the three per-phase energy
registers in order, failing fast with `(0, err)` on the first failed
read; replace the second and third values by `0` when their four raw
bytes are all `0xff`; return the 32-bit sum divided by 1000 (the Go
code's `float64` arithmetic is modelled over `ℚ`). -/
def totalEnergy (l1 l2 l3 : Except GoErr (List Nat)) : ℚ × Option GoErr :=
  match l1 with
  | .error e => (0, some e)
  | .ok b1 =>
    match l2 with
    | .error e => (0, some e)
    | .ok b2 =>
      let e2 := if b2 = [255, 255, 255, 255] then 0 else toUint32 b2
      match l3 with
      | .error e => (0, some e)
      | .ok b3 =>
        let e3 := if b3 = [255, 255, 255, 255] then 0 else toUint32 b3
        ((((toUint32 b1 + e2 + e3) % 4294967296 : Nat) : ℚ) / 1000, Option.none)

/-! ## FritzDECT charger

The driver talks to the device via `ExecCmd`, which returns a reply
string or an error; replies are parsed with Go's `strconv.ParseBool`. -/

/-- Go's `strconv.ParseBool`: accepts exactly
`1, t, T, TRUE, true, True` as `true` and
`0, f, F, FALSE, false, False` as `false`; anything else is a syntax
error. -/
def parseBool (s : String) : Except GoErr Bool :=
  if s = "1" ∨ s = "t" ∨ s = "T" ∨ s = "TRUE" ∨ s = "true" ∨ s = "True" then
    .ok true
  else if s = "0" ∨ s = "f" ∨ s = "F" ∨ s = "FALSE" ∨ s = "false" ∨ s = "False" then
    .ok false
  else
    .error ⟨"strconv.ParseBool: parsing " ++ s ++ ": invalid syntax"⟩

/-- `FritzDECT.Enabled`: run `getswitchstate`; an I/O error is returned
as-is, the reply `inval` becomes `api.ErrNotAvailable`, any other reply
is handed to `ParseBool` (whose zero value `false` accompanies a parse
error). -/
def fritzEnabled (stateResp : Except GoErr String) : Bool × Option GoErr :=
  match stateResp with
  | .error e => (false, some e)
  | .ok resp =>
    if resp = "inval" then (false, some errNotAvailable)
    else
      match parseBool resp with
      | .ok b => (b, Option.none)
      | .error e => (false, some e)

/-- `FritzDECT.Status`: run `getswitchpresent` and parse the reply; a
reply parsing to `false` becomes `api.ErrNotAvailable`, and any error
so far yields `(StatusNone, err)`.  Otherwise the state defaults to
`B`; with negative standby power (`static mode`) it is lifted to `C`
when `Enabled` reports on, else (`standby power mode`) when the
measured power exceeds the standby threshold.  `powerRes` is the
`CurrentPower()` result pair used in the standby branch. -/
def fritzStatus (standbypower : ℚ) (presentResp : Except GoErr String)
    (stateResp : Except GoErr String) (powerRes : ℚ × Option GoErr) :
    ChargeStatus × Option GoErr :=
  let preErr : Option GoErr :=
    match presentResp with
    | .error e => some e
    | .ok resp =>
      match parseBool resp with
      | .error e => some e
      | .ok present => if present then Option.none else some errNotAvailable
  match preErr with
  | some e => (.none, some e)
  | Option.none =>
    if standbypower < 0 then
      match fritzEnabled stateResp with
      | (isOn, err) => (if isOn then .C else .B, err)
    else
      match powerRes with
      | (power, err) => (if standbypower < power then .C else .B, err)

/-- `FritzDECT.Enable(enable)`: send `setswitchon`/`setswitchoff`; on
an I/O error return it; otherwise parse the confirmed state and fail
with `switch failed` when it differs from the requested one. -/
def fritzEnable (enable : Bool) (cmdResp : Except GoErr String) : Option GoErr :=
  match cmdResp with
  | .error e => some e
  | .ok resp =>
    match parseBool resp with
    | .error e => some e
    | .ok isOn => if enable ≠ isOn then some ⟨"switch failed"⟩ else Option.none

/-! ## Cloud edge gateway (`cloud/edge`)

`handleRequest` receives `EdgeRequest`s from the backend stream,
dispatches them through `apiRequest` against the site's loadpoints and
sends back `EdgeResponse`s; `sendUpDates` forwards parameter updates.
The protobuf payloads carry one value per primitive type; Go `float64`
fields are modelled over `ℚ`, timestamps and durations as `Int`. -/

/-- The `pb.Payload` message (zero values as Go defaults). -/
structure Payload where
  stringval : String := ""
  boolval : Bool := false
  intval : Int := 0
  floatval : ℚ := 0
  timeval : Int := 0
  durationval : Int := 0
deriving DecidableEq, Repr

/-- The `cloud.ApiCall` enumeration driving `apiRequest`'s switch; an
operation code outside the table is `other n` (carrying the raw
`req.Api` number used in the `unknown api call` message). -/
inductive ApiId where
  | name | hasChargeMeter
  | getStatus | getMode | setMode
  | getTargetSoC | setTargetSoC
  | getMinSoC | setMinSoC
  | getPhases | setPhases
  | setTargetCharge
  | getChargePower
  | getMinCurrent | setMinCurrent
  | getMaxCurrent | setMaxCurrent
  | getMinPower | getMaxPower
  | getRemainingDuration | getRemainingEnergy
  | remoteControl
  | other (n : Int)
deriving DecidableEq, Repr

/-- Whether the operation's switch case dereferences the loadpoint
(every known case does; only the default does not). -/
def ApiId.usesLoadpoint : ApiId → Bool
  | .other _ => false
  | _ => true

/-- The `pb.EdgeRequest` message. -/
structure EdgeRequest where
  id : Int
  loadpoint : Int
  api : ApiId
  payload : Payload := {}

/-- The `pb.EdgeResponse` message (`Error` empty, payload zero unless
set by the dispatched case). -/
structure EdgeResponse where
  id : Int
  error : String := ""
  payload : Payload := {}
deriving DecidableEq, Repr

/-- One loadpoint as seen through the `loadpoint.API` interface used by
`apiRequest`.  The getters are snapshots of the values the core would
return.  Modelled from the spec: the `core/loadpoint` implementation is
not under `src/`; `SetMode` is modelled by `lpSetMode` below,
`RemoteControl` stores the commanded demand (a transient override that
"overwrites until explicitly reset or superseded"), and the fallible
setters `SetTargetSoC`/`SetMinSoC`/`SetPhases` return success or a
textual error and update their field exactly on success (an invalid
command is "rejected immediately ... no retry, no state change").  The
`...Res` oracle fields supply those setters' outcomes.  Go's
`ChargeMode` is a string type, so `mode` is a `String`. -/
structure Loadpoint where
  name : String
  hasChargeMeterVal : Bool
  status : String
  mode : String
  targetSoC : Int
  minSoC : Int
  phases : Int
  chargePower : ℚ
  minCurrent : ℚ
  maxCurrent : ℚ
  minPower : ℚ
  maxPower : ℚ
  remainingDuration : Int
  remainingEnergy : ℚ
  targetTime : Int
  targetChargeSoC : Int
  remoteDemand : String
  setTargetSoCRes : Int → Option GoErr
  setMinSoCRes : Int → Option GoErr
  setPhasesRes : Int → Option GoErr

/-- The charge mode enumeration `{off, now, minpv, pv}` of the spec's
control surface (§3, §6). -/
def chargeModes : List String := ["off", "now", "minpv", "pv"]

/-- Modelled from the spec: `core/loadpoint.SetMode` is not under
`src/`.  Per §3/§6 the charge mode is the closed enum
`{off, now, minpv, pv}` and per §7(c) a write outside the legal range
is "rejected immediately with an explanation, no retry, no state
change" — so the stand-in stores the commanded mode exactly when it is
a member of the enum and otherwise leaves the loadpoint unchanged.
The rejection's explanation cannot reach the response: the visible
gateway code calls `lp.SetMode(...)` without assigning an error. -/
def lpSetMode (lp : Loadpoint) (m : String) : Loadpoint :=
  if m ∈ chargeModes then { lp with mode := m } else lp

/-- Outcome of `apiRequest`: either a Go runtime panic (nil-interface
method call when `req.Loadpoint` is `0`, or an out-of-range slice index)
or a normal return carrying the possibly updated loadpoint list, the
response and the dispatch error. -/
inductive ApiResult where
  | panics
  | ret (site : List Loadpoint) (resp : EdgeResponse) (err : Option GoErr)

/-- The switch body of `apiRequest`: `lp?` is the resolved loadpoint
(`Option.none` models Go's nil interface, on which every known case's
method call panics), `idx` its index used to write updated state back
into the site list. -/
def dispatch (site : List Loadpoint) (req : EdgeRequest)
    (lp? : Option Loadpoint) (idx : Nat) : ApiResult :=
  match req.api, lp? with
  | .other n, _ =>
    .ret site { id := req.id } (some ⟨"unknown api call " ++ toString n⟩)
  | _, Option.none => .panics
  | .name, some lp =>
    .ret site { id := req.id, payload := { stringval := lp.name } } Option.none
  | .hasChargeMeter, some lp =>
    .ret site { id := req.id, payload := { boolval := lp.hasChargeMeterVal } } Option.none
  | .getStatus, some lp =>
    .ret site { id := req.id, payload := { stringval := lp.status } } Option.none
  | .getMode, some lp =>
    .ret site { id := req.id, payload := { stringval := lp.mode } } Option.none
  | .setMode, some lp =>
    .ret (site.set idx (lpSetMode lp req.payload.stringval))
      { id := req.id } Option.none
  | .getTargetSoC, some lp =>
    .ret site { id := req.id, payload := { intval := lp.targetSoC } } Option.none
  | .setTargetSoC, some lp =>
    match lp.setTargetSoCRes req.payload.intval with
    | Option.none =>
      .ret (site.set idx { lp with targetSoC := req.payload.intval })
        { id := req.id } Option.none
    | some e => .ret site { id := req.id } (some e)
  | .getMinSoC, some lp =>
    .ret site { id := req.id, payload := { intval := lp.minSoC } } Option.none
  | .setMinSoC, some lp =>
    match lp.setMinSoCRes req.payload.intval with
    | Option.none =>
      .ret (site.set idx { lp with minSoC := req.payload.intval })
        { id := req.id } Option.none
    | some e => .ret site { id := req.id } (some e)
  | .getPhases, some lp =>
    .ret site { id := req.id, payload := { intval := lp.phases } } Option.none
  | .setPhases, some lp =>
    match lp.setPhasesRes req.payload.intval with
    | Option.none =>
      .ret (site.set idx { lp with phases := req.payload.intval })
        { id := req.id } Option.none
    | some e => .ret site { id := req.id } (some e)
  | .setTargetCharge, some lp =>
    .ret (site.set idx
        { lp with targetTime := req.payload.timeval,
                  targetChargeSoC := req.payload.intval })
      { id := req.id } Option.none
  | .getChargePower, some lp =>
    .ret site { id := req.id, payload := { floatval := lp.chargePower } } Option.none
  | .getMinCurrent, some lp =>
    .ret site { id := req.id, payload := { floatval := lp.minCurrent } } Option.none
  | .setMinCurrent, some lp =>
    .ret (site.set idx { lp with minCurrent := req.payload.floatval })
      { id := req.id } Option.none
  | .getMaxCurrent, some lp =>
    .ret site { id := req.id, payload := { floatval := lp.maxCurrent } } Option.none
  | .setMaxCurrent, some lp =>
    .ret (site.set idx { lp with maxCurrent := req.payload.floatval })
      { id := req.id } Option.none
  | .getMinPower, some lp =>
    .ret site { id := req.id, payload := { floatval := lp.minPower } } Option.none
  | .getMaxPower, some lp =>
    .ret site { id := req.id, payload := { floatval := lp.maxPower } } Option.none
  | .getRemainingDuration, some lp =>
    .ret site { id := req.id, payload := { durationval := lp.remainingDuration } } Option.none
  | .getRemainingEnergy, some lp =>
    .ret site { id := req.id, payload := { floatval := lp.remainingEnergy } } Option.none
  | .remoteControl, some lp =>
    .ret (site.set idx { lp with remoteDemand := req.payload.stringval })
      { id := req.id } Option.none

/-- `apiRequest`: when `req.Loadpoint > 0` the loadpoint is fetched as
`site.LoadPoints()[req.Loadpoint-1]` — an index at or beyond the slice
length panics; with `req.Loadpoint ≤ 0` the nil interface is passed to
the switch. -/
def apiRequest (site : List Loadpoint) (req : EdgeRequest) : ApiResult :=
  if 0 < req.loadpoint then
    let idx := (req.loadpoint - 1).toNat
    match site.get? idx with
    | Option.none => .panics
    | some lp => dispatch site req (some lp) idx
  else
    dispatch site req Option.none 0

/-- What one iteration of the `handleRequest` loop receives. -/
inductive RecvResult where
  | eof
  | recvErr (e : GoErr)
  | ok (req : EdgeRequest)

/-- Outcome of one iteration of the `handleRequest` loop. -/
inductive StepOutcome where
  | done
  | exitProcess (code : Nat)
  | panicked
  | sent (site : List Loadpoint) (resp : EdgeResponse)

/-- One iteration of `handleRequest`: `io.EOF` closes `done` and
returns; any other receive error prints and calls `os.Exit(1)`; a
received request goes through `apiRequest` (whose Go panics propagate),
a dispatch error's text is copied into the response's `Error` field,
and the response is sent exactly once — a failed send panics. -/
def handleRequestStep (site : List Loadpoint) (rv : RecvResult)
    (sendOk : Bool) : StepOutcome :=
  match rv with
  | .eof => .done
  | .recvErr _ => .exitProcess 1
  | .ok req =>
    match apiRequest site req with
    | .panics => .panicked
    | .ret site' resp err =>
      let resp' := match err with
        | Option.none => resp
        | some e => { resp with error := e.msg }
      if sendOk then .sent site' resp' else .panicked

/-- A `util.Param` consumed by `sendUpDates` (the gob value itself is
irrelevant; only whether encoding succeeds matters). -/
structure Param where
  loadPoint : Option Int
  key : String

/-- Outcome of one iteration of the `sendUpDates` loop. -/
inductive UpdOutcome where
  | encodeAbort
  | sendAbort
  | sentUpd (lp : Int) (key : String)
deriving DecidableEq, Repr

/-- One iteration of `sendUpDates`: a gob-encoding failure panics, then
the update (loadpoint index shifted by one, `0` for a site-level param)
is sent — a failed send panics. -/
def sendUpdatesStep (p : Param) (encodeOk : Bool) (sendOk : Bool) : UpdOutcome :=
  if encodeOk = false then .encodeAbort
  else
    let lp : Int := match p.loadPoint with
      | Option.none => 0
      | some i => i + 1
    if sendOk then .sentUpd lp p.key else .sendAbort

/-- A concrete loadpoint used in counterexamples and witnesses. -/
def lpDefault : Loadpoint where
  name := "lp1"
  hasChargeMeterVal := true
  status := "B"
  mode := "pv"
  targetSoC := 80
  minSoC := 0
  phases := 3
  chargePower := 0
  minCurrent := 6
  maxCurrent := 16
  minPower := 0
  maxPower := 11000
  remainingDuration := 0
  remainingEnergy := 0
  targetTime := 0
  targetChargeSoC := 0
  remoteDemand := ""
  setTargetSoCRes := fun _ => Option.none
  setMinSoCRes := fun _ => Option.none
  setPhasesRes := fun _ => Option.none

/-! ## Helper lemmas -/

/-- `toUint32` is bounded by `131070` on every input: each of the two
16-bit summands is below `65536`, so the final 32-bit reduction is the
identity. -/
theorem toUint32_le (b : List Nat) : toUint32 b ≤ 131070 := by
  unfold toUint32
  split
  · omega
  · omega

/-- The `uint16` conversion lands in `[0, 65536)`. -/
theorem u16ofInt_lt (i : Int) : u16ofInt i < 65536 := by
  unfold u16ofInt
  have h1 : 0 ≤ i % 65536 := Int.emod_nonneg i (by norm_num)
  have h2 : i % 65536 < 65536 := Int.emod_lt_of_pos i (by norm_num)
  omega

/-- `uint16` of a `Nat` below `65536` is that `Nat`. -/
theorem u16ofInt_ofNat (n : Nat) (h : n < 65536) : u16ofInt (Int.ofNat n) = n := by
  unfold u16ofInt
  rw [Int.ofNat_eq_coe]
  omega

/-- Invariant of the `amtron_professional.go` state: every mutating
operation keeps `curr` strictly positive and below `65536`. -/
theorem tcpStep_inv (s : AmtronTcp) (op : TcpOp)
    (hpos : 0 < s.curr) (hlt : s.curr < 65536) :
    0 < (tcpStep s op).curr ∧ (tcpStep s op).curr < 65536 := by
  have bound := u16ofInt_lt
  cases op with
  | mc c w =>
    simp only [tcpStep, tcpMaxCurrent]
    cases w <;> simp
    · exact ⟨hpos, hlt⟩
    · split
      · exact ⟨by assumption, bound c⟩
      · exact ⟨hpos, hlt⟩
  | en b w =>
    cases b <;> simp only [tcpStep, tcpEnable, tcpMaxCurrent] <;>
      cases w <;> simp
    · exact ⟨hpos, hlt⟩
    · split
      · exact ⟨by assumption, u16ofInt_lt 0⟩
      · exact ⟨hpos, hlt⟩
    · exact ⟨hpos, hlt⟩
    · split
      · exact ⟨by assumption, u16ofInt_lt (Int.ofNat s.curr)⟩
      · exact ⟨hpos, hlt⟩

/-- The invariant holds along every fold of mutating operations. -/
theorem tcpFold_inv (ops : List TcpOp) :
    ∀ s : AmtronTcp, 0 < s.curr → s.curr < 65536 →
      0 < (ops.foldl tcpStep s).curr ∧ (ops.foldl tcpStep s).curr < 65536 := by
  induction ops with
  | nil => exact fun s hp hl => ⟨hp, hl⟩
  | cons op rest ih =>
    intro s hp hl
    have h := tcpStep_inv s op hp hl
    exact ih (tcpStep s op) h.1 h.2

/-! ## Claims about the Amtron drivers -/

/-- Claim C3: for both Amtron drivers, a successful status-register
read maps low-byte values `1..6` in order to connector states `A..F`,
and any other low byte yields `StatusNone` with an `invalid status`
error; a failed read yields `StatusNone` with the read error. -/
theorem amtron_status_mapping (b0 b1 : Nat) (e : GoErr) :
    amtronStatus (.error e) = (.none, some e)
    ∧ amtronStatus (.ok (b0, 1)) = (.A, Option.none)
    ∧ amtronStatus (.ok (b0, 2)) = (.B, Option.none)
    ∧ amtronStatus (.ok (b0, 3)) = (.C, Option.none)
    ∧ amtronStatus (.ok (b0, 4)) = (.D, Option.none)
    ∧ amtronStatus (.ok (b0, 5)) = (.E, Option.none)
    ∧ amtronStatus (.ok (b0, 6)) = (.F, Option.none)
    ∧ (b1 = 0 ∨ 7 ≤ b1 →
        amtronStatus (.ok (b0, b1)) =
          (.none, some ⟨"invalid status: [" ++ toString b0 ++ " " ++ toString b1 ++ "]"⟩)) := by
  refine ⟨rfl, rfl, rfl, rfl, rfl, rfl, rfl, ?_⟩
  rintro (rfl | h7)
  · rfl
  · obtain ⟨k, rfl⟩ : ∃ k, b1 = k + 7 := ⟨b1 - 7, by omega⟩
    rfl

/-- Witness for C3 at low byte `7`. -/
theorem amtron_status_mapping_witness :
    amtronStatus (.ok (0, 7)) = (.none, some ⟨"invalid status: [0 7]"⟩) :=
  (amtron_status_mapping 0 7 ⟨""⟩).2.2.2.2.2.2.2 (Or.inr (by omega))

/-- Claim C4: for `amtron_professional.go`, the stored fallback `curr`
is strictly positive after every operation sequence from the initial
state `curr = 6`; `Enable(false)` commands register value `0` and
`Enable(true)` always commands a strictly positive register value. -/
theorem amtron_tcp_command_invariant (ops : List TcpOp) :
    tcpRun [] = ⟨6⟩
    ∧ 0 < (tcpRun ops).curr
    ∧ (∀ w, (tcpEnable (tcpRun ops) false w).2.1 = 0)
    ∧ (∀ w, 0 < (tcpEnable (tcpRun ops) true w).2.1) := by
  have hinv := tcpFold_inv ops ⟨6⟩ (by norm_num) (by norm_num)
  refine ⟨rfl, hinv.1, ?_, ?_⟩
  · intro w
    simp only [tcpEnable, tcpMaxCurrent]
    cases w <;> simp [u16ofInt]
  · intro w
    simp only [tcpEnable, tcpMaxCurrent]
    have := u16ofInt_ofNat (tcpRun ops).curr hinv.2
    cases w <;> simp [tcpRun] at this ⊢ <;> omega

/-- Claim C8 counterexample: in `amtron_prof.go`, after `Enable(false)`
(which clobbers the stored current to `0` and writes `0`) and a
subsequent `MaxCurrent(8)` while disabled (stored only), the next
successful `Enable(true)` performs NO device write at all — the claim
says it would write the stored value `8`. -/
theorem amtron_prof_enable_cex :
    profEnable ⟨true, 6⟩ false Option.none = (⟨false, 0⟩, [0], Option.none)
    ∧ profMaxCurrent ⟨false, 0⟩ 8 Option.none = (⟨false, 8⟩, [], Option.none)
    ∧ profEnable ⟨false, 8⟩ true Option.none = (⟨true, 8⟩, [], Option.none)
    ∧ ([] : List Nat) ≠ [8] := by
  refine ⟨rfl, rfl, rfl, by decide⟩

/-- Claim C8 (amended): while disabled, `MaxCurrent(c)` performs no
device write and changes only the stored current; a subsequent
`Enable(true)` performs no device write either, only setting the
cached flag (the stored current reaches the device only at the first
`MaxCurrent` once enabled); while enabled, `MaxCurrent(c)` writes `c`
immediately; `Enabled()` reports the cached flag with no I/O. -/
theorem amtron_prof_frame (s : AmtronProf) (c : Int) (w : Option GoErr) :
    (s.enabled = false → profMaxCurrent s c w = (⟨false, c⟩, [], Option.none))
    ∧ (s.enabled = false → profEnable s true w = (⟨true, s.current⟩, [], Option.none))
    ∧ (s.enabled = true → profMaxCurrent s c w = (⟨true, c⟩, [u16ofInt c], w))
    ∧ profEnabled s = (s.enabled, [], Option.none) := by
  obtain ⟨en, cur⟩ := s
  refine ⟨?_, ?_, ?_, rfl⟩ <;> rintro rfl <;>
    simp [profMaxCurrent, profEnable, profEnabled]

/-- Witness for C8's amended theorem at a concrete state. -/
theorem amtron_prof_frame_witness :
    profMaxCurrent ⟨false, 0⟩ 8 Option.none = (⟨false, 8⟩, [], Option.none)
    ∧ profEnable ⟨false, 8⟩ true Option.none = (⟨true, 8⟩, [], Option.none)
    ∧ profMaxCurrent ⟨true, 6⟩ 10 Option.none = (⟨true, 10⟩, [10], Option.none) :=
  ⟨(amtron_prof_frame ⟨false, 0⟩ 8 Option.none).1 rfl,
   (amtron_prof_frame ⟨false, 8⟩ 8 Option.none).2.1 rfl,
   (amtron_prof_frame ⟨true, 6⟩ 10 Option.none).2.2.1 rfl⟩

/-- Claim C9: `toUint32` is total — below four bytes it returns `0`;
on byte-valued input of length at least four it returns the
little-endian 16-bit value of bytes 0..1 times 256 wrapped modulo
`2 ^ 16`, plus the big-endian 16-bit value of bytes 2..3; the result
never exceeds `131070`. -/
theorem toUint32_total (b : List Nat) :
    (b.length < 4 → toUint32 b = 0)
    ∧ (4 ≤ b.length → (∀ x ∈ b, x < 256) →
        toUint32 b = ((b.getD 0 0 + b.getD 1 0 * 256) * 256) % 65536
                      + (b.getD 2 0 * 256 + b.getD 3 0))
    ∧ toUint32 b ≤ 131070 := by
  refine ⟨fun h => by simp [toUint32, h], ?_, toUint32_le b⟩
  intro hlen hbytes
  match b, hlen with
  | x0 :: x1 :: x2 :: x3 :: rest, _ =>
    have h0 : x0 < 256 := hbytes x0 (by simp)
    have h1 : x1 < 256 := hbytes x1 (by simp)
    have h2 : x2 < 256 := hbytes x2 (by simp)
    have h3 : x3 < 256 := hbytes x3 (by simp)
    simp only [toUint32, List.length_cons, List.getD_cons_zero, List.getD_cons_succ]
    split
    · omega
    · omega

/-- Witness for C9 on concrete byte slices. -/
theorem toUint32_total_witness :
    toUint32 [1, 2] = 0
    ∧ toUint32 [1, 2, 3, 4] = ((1 + 2 * 256) * 256) % 65536 + (3 * 256 + 4) :=
  ⟨(toUint32_total [1, 2]).1 (by norm_num),
   (toUint32_total [1, 2, 3, 4]).2.1 (by norm_num) (by decide)⟩

/-- Claim C10: `TotalEnergy` of `amtron_prof.go` returns
`(e1 + e2 + e3) / 1000` when all three reads succeed, where the second
and third values are zeroed on the all-`0xff` sentinel (the first is
not checked), and `(0, err)` on the first failing read. -/
theorem total_energy_spec (b1 b2 b3 : List Nat) (e : GoErr)
    (l2 l3 : Except GoErr (List Nat)) :
    totalEnergy (.ok b1) (.ok b2) (.ok b3) =
      (((toUint32 b1
          + (if b2 = [255, 255, 255, 255] then 0 else toUint32 b2)
          + (if b3 = [255, 255, 255, 255] then 0 else toUint32 b3) : Nat) : ℚ) / 1000,
        Option.none)
    ∧ totalEnergy (.error e) l2 l3 = (0, some e)
    ∧ totalEnergy (.ok b1) (.error e) l3 = (0, some e)
    ∧ totalEnergy (.ok b1) (.ok b2) (.error e) = (0, some e) := by
  refine ⟨?_, rfl, rfl, rfl⟩
  have hb1 := toUint32_le b1
  have hb2 := toUint32_le b2
  have hb3 := toUint32_le b3
  simp only [totalEnergy]
  congr 1
  congr 1
  congr 1
  have hlt : toUint32 b1
      + (if b2 = [255, 255, 255, 255] then 0 else toUint32 b2)
      + (if b3 = [255, 255, 255, 255] then 0 else toUint32 b3) < 4294967296 := by
    split <;> split <;> omega
  exact Nat.mod_eq_of_lt hlt

/-! ## Claims about the FritzDECT charger -/

/-- Claim C6: capability absence is surfaced as "not available" —
a `getswitchpresent` reply parsing to `false` makes `Status` fail with
`api.ErrNotAvailable` (no connector state), and a `getswitchstate`
reply of `inval` makes `Enabled` fail with `api.ErrNotAvailable`. -/
theorem fritz_not_available (sb : ℚ) (s : String)
    (st : Except GoErr String) (pw : ℚ × Option GoErr) :
    (parseBool s = .ok false →
      fritzStatus sb (.ok s) st pw = (.none, some errNotAvailable))
    ∧ fritzEnabled (.ok "inval") = (false, some errNotAvailable) := by
  refine ⟨fun h => ?_, rfl⟩
  simp [fritzStatus, h]

/-- Witness for C6 with the reply `"0"`. -/
theorem fritz_not_available_witness :
    fritzStatus 0 (.ok "0") (.ok "1") (0, Option.none) =
      (.none, some errNotAvailable) :=
  (fritz_not_available 0 "0" (.ok "1") (0, Option.none)).1 rfl

/-- Claim C7: `FritzDECT.Enable(b)` succeeds exactly when the command
reply parses to the requested state `b`; a confirmed state differing
from `b` fails with `switch failed`. -/
theorem fritz_enable_confirms (b : Bool) (r : Except GoErr String)
    (s : String) (isOn : Bool) :
    (fritzEnable b r = Option.none ↔ ∃ t, r = .ok t ∧ parseBool t = .ok b)
    ∧ (parseBool s = .ok isOn → isOn ≠ b →
        fritzEnable b (.ok s) = some ⟨"switch failed"⟩) := by
  constructor
  · cases r with
    | error e => simp [fritzEnable]
    | ok resp =>
      cases hp : parseBool resp with
      | error e => simp [fritzEnable, hp]
      | ok v =>
        simp only [fritzEnable, hp]
        by_cases hbv : b = v
        · subst hbv
          simp [hp]
        · simp only [ne_eq, hbv, not_false_iff, if_pos, reduceIte]
          constructor
          · intro h
            exact absurd h (by simp)
          · rintro ⟨t, ht, hpt⟩
            injection ht with ht
            subst ht
            rw [hp] at hpt
            injection hpt with hv
            exact absurd hv.symm hbv
  · intro hp hne
    simp only [fritzEnable, hp]
    have : b ≠ isOn := fun h => hne h.symm
    simp [this]

/-- Witness for C7: a confirming reply succeeds, a contradicting reply
fails with `switch failed`. -/
theorem fritz_enable_confirms_witness :
    fritzEnable true (.ok "1") = Option.none
    ∧ fritzEnable true (.ok "0") = some ⟨"switch failed"⟩ :=
  ⟨(fritz_enable_confirms true (.ok "1") "1" true).1.mpr ⟨"1", rfl, rfl⟩,
   (fritz_enable_confirms true (.ok "0") "0" false).2 rfl (by decide)⟩

/-! ## Claims about the edge gateway -/

/-- Every normal return of the dispatch switch carries the request's
id in the response. -/
theorem dispatch_id (site : List Loadpoint) (req : EdgeRequest)
    (lp? : Option Loadpoint) (idx : Nat) (site' : List Loadpoint)
    (resp : EdgeResponse) (err : Option GoErr)
    (h : dispatch site req lp? idx = .ret site' resp err) :
    resp.id = req.id := by
  unfold dispatch at h
  repeat' split at h
  all_goals cases h
  all_goals rfl

/-- The default switch case: an operation code outside the table
returns the bare response and the `unknown api call` error, touching
neither the site nor the loadpoint. -/
theorem dispatch_unknown (site : List Loadpoint) (req : EdgeRequest)
    (lp? : Option Loadpoint) (idx : Nat) (n : Int)
    (h : req.api = .other n) :
    dispatch site req lp? idx =
      .ret site { id := req.id } (some ⟨"unknown api call " ++ toString n⟩) := by
  unfold dispatch
  rw [h]
  cases lp? <;> rfl

/-- Setting position `length pre` of `pre ++ x :: suff` replaces `x`. -/
theorem list_set_at_append {α : Type} (pre suff : List α) (x v : α) :
    (pre ++ x :: suff).set pre.length v = pre ++ v :: suff := by
  induction pre with
  | nil => rfl
  | cons a t ih => simp [List.set, ih]

/-- Claim C1 counterexample: gateway processing does abort the process —
a non-EOF stream receive error calls `os.Exit(1)`, an update-encoding
failure and a send failure panic, and a request with loadpoint index
`0` (nil interface) or beyond the configured loadpoints panics. -/
theorem gateway_abort_cex :
    handleRequestStep [] (.recvErr ⟨"connection reset"⟩) true = .exitProcess 1
    ∧ sendUpdatesStep ⟨Option.none, "chargePower"⟩ false true = .encodeAbort
    ∧ sendUpdatesStep ⟨Option.none, "chargePower"⟩ true false = .sendAbort
    ∧ handleRequestStep [lpDefault] (.ok { id := 1, loadpoint := 0, api := .getStatus }) true
        = .panicked
    ∧ handleRequestStep [lpDefault] (.ok { id := 2, loadpoint := 2, api := .getStatus }) true
        = .panicked :=
  ⟨rfl, rfl, rfl, rfl, rfl⟩

/-- Claim C1 (amended): only end-of-stream ends the handler loop
gracefully, and an unknown-operation request yields an error response;
but a stream receive error exits the process with code 1, an
update-encoding failure or a stream send failure panics, and a request
whose loadpoint index is `0` (for any loadpoint-bound operation) or
beyond the configured loadpoints panics. -/
theorem gateway_abort_behavior (site : List Loadpoint) (e : GoErr)
    (req : EdgeRequest) (p : Param) (sendOk : Bool) (n : Int) :
    handleRequestStep site .eof sendOk = .done
    ∧ handleRequestStep site (.recvErr e) sendOk = .exitProcess 1
    ∧ sendUpdatesStep p false sendOk = .encodeAbort
    ∧ sendUpdatesStep p true false = .sendAbort
    ∧ (req.loadpoint ≤ 0 → req.api.usesLoadpoint = true →
        apiRequest site req = .panics)
    ∧ (0 < req.loadpoint → site.length ≤ (req.loadpoint - 1).toNat →
        apiRequest site req = .panics)
    ∧ (req.api = .other n →
        (req.loadpoint ≤ 0 ∨ (req.loadpoint - 1).toNat < site.length) →
        handleRequestStep site (.ok req) true =
          .sent site { id := req.id, error := "unknown api call " ++ toString n }) := by
  refine ⟨rfl, rfl, rfl, ?_, ?_, ?_, ?_⟩
  · simp [sendUpdatesStep]
  · intro hlp hu
    have hnot : ¬ 0 < req.loadpoint := by omega
    simp only [apiRequest, if_neg hnot]
    cases ha : req.api <;> simp [dispatch, ha] <;>
      simp [ApiId.usesLoadpoint, ha] at hu
  · intro hlp hlen
    simp only [apiRequest, if_pos hlp]
    rw [List.get?_eq_none.mpr hlen]
  · intro ha hrange
    have hapi : apiRequest site req =
        .ret site { id := req.id } (some ⟨"unknown api call " ++ toString n⟩) := by
      by_cases hpos : 0 < req.loadpoint
      · have hlt : (req.loadpoint - 1).toNat < site.length := by
          rcases hrange with hle | hlt
          · omega
          · exact hlt
        simp only [apiRequest, if_pos hpos]
        rw [List.get?_eq_get hlt]
        exact dispatch_unknown site req _ _ n ha
      · simp only [apiRequest, if_neg hpos]
        exact dispatch_unknown site req _ _ n ha
    simp [handleRequestStep, hapi]

/-- Witness for C1's amended theorem at concrete inputs. -/
theorem gateway_abort_behavior_witness :
    apiRequest [] { id := 1, loadpoint := 0, api := .getStatus } = .panics
    ∧ apiRequest [] { id := 2, loadpoint := 1, api := .getStatus } = .panics
    ∧ handleRequestStep [] (.ok { id := 3, loadpoint := 0, api := .other 7 }) true =
        .sent [] { id := 3, error := "unknown api call 7" } :=
  ⟨(gateway_abort_behavior [] ⟨""⟩ { id := 1, loadpoint := 0, api := .getStatus }
      ⟨Option.none, ""⟩ true 0).2.2.2.2.1 (by norm_num) rfl,
   (gateway_abort_behavior [] ⟨""⟩ { id := 2, loadpoint := 1, api := .getStatus }
      ⟨Option.none, ""⟩ true 0).2.2.2.2.2.1 (by norm_num) (by norm_num),
   (gateway_abort_behavior [] ⟨""⟩ { id := 3, loadpoint := 0, api := .other 7 }
      ⟨Option.none, ""⟩ true 7).2.2.2.2.2.2 rfl (Or.inl (by norm_num))⟩

/-- Claim C2: every normal return of `apiRequest` carries the request's
id; an operation code outside the table fails with the
`unknown api call` error (site untouched); and whenever the dispatch
produced an error, `handleRequest` copies its text into the response's
`Error` field and still sends that one response. -/
theorem api_response_id_and_error (site : List Loadpoint) (req : EdgeRequest)
    (site' : List Loadpoint) (resp : EdgeResponse) (err : Option GoErr)
    (n : Int) (e : GoErr) :
    (apiRequest site req = .ret site' resp err → resp.id = req.id)
    ∧ (req.api = .other n →
        (req.loadpoint ≤ 0 ∨ (req.loadpoint - 1).toNat < site.length) →
        apiRequest site req =
          .ret site { id := req.id } (some ⟨"unknown api call " ++ toString n⟩))
    ∧ (apiRequest site req = .ret site' resp (some e) →
        handleRequestStep site (.ok req) true =
          .sent site' { resp with error := e.msg }) := by
    refine ⟨?_, ?_, ?_⟩
    · intro h
      unfold apiRequest at h
      split at h
      · dsimp only at h
        split at h
        · cases h
        · exact dispatch_id site req _ _ site' resp err h
      · exact dispatch_id site req _ _ site' resp err h
    · intro ha hrange
      by_cases hpos : 0 < req.loadpoint
      · have hlt : (req.loadpoint - 1).toNat < site.length := by
          rcases hrange with hle | hlt
          · omega
          · exact hlt
        simp only [apiRequest, if_pos hpos]
        rw [List.get?_eq_get hlt]
        exact dispatch_unknown site req _ _ n ha
      · simp only [apiRequest, if_neg hpos]
        exact dispatch_unknown site req _ _ n ha
    · intro h
      simp [handleRequestStep, h]

/-- Witness for C2 on a concrete unknown-operation request. -/
theorem api_response_id_and_error_witness :
    ({ id := 5 } : EdgeResponse).id = (5 : Int)
    ∧ apiRequest [] { id := 5, loadpoint := 0, api := .other 99 } =
        .ret [] { id := 5 } (some ⟨"unknown api call 99"⟩)
    ∧ handleRequestStep [] (.ok { id := 5, loadpoint := 0, api := .other 99 }) true =
        .sent [] { id := 5, error := "unknown api call 99" } := by
  refine ⟨?_, ?_, ?_⟩
  · exact (api_response_id_and_error [] { id := 5, loadpoint := 0, api := .other 99 }
      [] { id := 5 } (some ⟨"unknown api call 99"⟩) 99 ⟨"unknown api call 99"⟩).1 rfl
  · exact (api_response_id_and_error [] { id := 5, loadpoint := 0, api := .other 99 }
      [] { id := 5 } (some ⟨"unknown api call 99"⟩) 99 ⟨"unknown api call 99"⟩).2.1
      rfl (Or.inl (by norm_num))
  · exact (api_response_id_and_error [] { id := 5, loadpoint := 0, api := .other 99 }
      [] { id := 5 } (some ⟨"unknown api call 99"⟩) 99 ⟨"unknown api call 99"⟩).2.2 rfl

/-- Claim C5: the charge mode applied to a loadpoint by a `SetMode`
request is always a member of `{off, now, minpv, pv}` — a request
whose mode string is a member of the enum stores it, and a request
whose mode string lies outside the enum is never applied (the
loadpoint is unchanged, per the spec-modelled `lpSetMode`). -/
theorem setmode_enum_only (pre suff : List Loadpoint) (lp : Loadpoint)
    (req : EdgeRequest) (h1 : req.api = .setMode)
    (h2 : req.loadpoint = pre.length + 1) :
    (req.payload.stringval ∉ chargeModes →
        apiRequest (pre ++ lp :: suff) req =
          .ret (pre ++ lp :: suff) { id := req.id } Option.none)
    ∧ (req.payload.stringval ∈ chargeModes →
        apiRequest (pre ++ lp :: suff) req =
          .ret (pre ++ { lp with mode := req.payload.stringval } :: suff)
            { id := req.id } Option.none) := by
  have hpos : 0 < req.loadpoint := by omega
  have hidx : (req.loadpoint - 1).toNat = pre.length := by omega
  have hget : (pre ++ lp :: suff).get? pre.length = some lp := by
    rw [List.get?_append_right (le_refl pre.length)]
    simp
  constructor
  · intro hnot
    simp only [apiRequest, if_pos hpos, hidx]
    rw [hget]
    dsimp only
    unfold dispatch
    rw [h1]
    dsimp only
    unfold lpSetMode
    rw [if_neg hnot]
    rw [list_set_at_append]
  · intro hmem
    simp only [apiRequest, if_pos hpos, hidx]
    rw [hget]
    dsimp only
    unfold dispatch
    rw [h1]
    dsimp only
    unfold lpSetMode
    rw [if_pos hmem]
    rw [list_set_at_append]

/-- Witness for C5 at a concrete site: an out-of-enum mode string is
rejected with no state change, an enum member is stored. -/
theorem setmode_enum_only_witness :
    apiRequest [lpDefault]
        { id := 7, loadpoint := 1, api := .setMode,
          payload := { stringval := "garbage" } } =
      .ret [lpDefault] { id := 7 } Option.none
    ∧ apiRequest [lpDefault]
        { id := 9, loadpoint := 1, api := .setMode,
          payload := { stringval := "now" } } =
      .ret [{ lpDefault with mode := "now" }] { id := 9 } Option.none :=
  ⟨(setmode_enum_only [] [] lpDefault
      { id := 7, loadpoint := 1, api := .setMode, payload := { stringval := "garbage" } }
      rfl (by norm_num)).1 (by decide),
   (setmode_enum_only [] [] lpDefault
      { id := 9, loadpoint := 1, api := .setMode, payload := { stringval := "now" } }
      rfl (by norm_num)).2 (by decide)⟩

end Evcc
